import Mathlib

/-!
Shallow embedding of the C11 threads emulation header `threads_posix.h`
(mesa-c11-threads).  Each C function relevant to the claims is embedded as a
pure Lean function.  Native pthread primitives are modelled as oracles: their
integer return values (and, for the emulated timed-lock loop, the wall-clock
readings) are parameters of the embedded function.  Side effects on native
state (attribute/mutex initialisation, malloc/free, thread creation) are made
observable through explicit event traces returned alongside the result.
Machine integers use Int/Nat with explicit reduction modulo 2^w at the points
where the C code narrows or widens (the `(void*)(intptr_t)` casts), under the
LP64 model: `int` is 32 bits, `intptr_t` and `void *` are 64 bits.
-/

/-- Modelled from the spec: the Result Code taxonomy of the library's public
header (`thrd_success`, `thrd_busy`, `thrd_error`, `thrd_nomem`), which is not
under src/.  The implementation file only produces and compares these values,
never computes with them, so an inductive type is a faithful model. -/
inductive ThrdResult where
  | success
  | busy
  | error
  | nomem
deriving DecidableEq, Repr

/-- Modelled from the spec: the Absolute Time Point, a (seconds, nanoseconds)
pair (`struct xtime` of the library's public header, not under src/).  The same
shape models `struct timespec` (`tv_sec`, `tv_nsec`), which the source fills
field-by-field from an `xtime`. -/
structure xtime where
  sec : Int
  nsec : Int
deriving DecidableEq, Repr

/-- Modelled from the spec: the native timeout indicator `ETIMEDOUT` from the
platform's `errno.h` (not under src/); a positive errno value, 110 on Linux. -/
def ETIMEDOUT : Int := 110

/-- Outcome of a call into an embedded C function: either a returned result
code, or an assertion failure.  `assert(p)` with assertions enabled aborts the
process when `p` is false (and with `NDEBUG` the subsequent null dereference is
undefined); in neither build does the function return a result code. -/
inductive COut where
  | ret (r : ThrdResult)
  | abort
deriving DecidableEq, Repr

/-- Embeds `mtx_trylock` (threads_posix.h:232-237).  `assert(mtx != NULL)`,
then `return (pthread_mutex_trylock(mtx) == 0) ? thrd_success : thrd_busy`.
The native trylock's return value is the oracle `rt`. -/
def mtx_trylock (mtx : Option Unit) (rt : Int) : COut :=
  match mtx with
  | none => .abort
  | some _ => if rt = 0 then .ret .success else .ret .busy

/-- Embeds `mtx_timedlock` (threads_posix.h:200-229) in the configuration
where `EMULATED_THREADS_USE_NATIVE_TIMEDLOCK` is defined.  After
`assert(mtx != NULL); assert(xt != NULL);` the code copies `xt->sec`/`xt->nsec`
into a `struct timespec ts` and calls `pthread_mutex_timedlock(mtx, &ts)`,
whose return value is the oracle `rt`; `rt == 0` maps to success, then
`rt == ETIMEDOUT` to busy, anything else to error.  The second component
records the timespec passed to the native call (`none` when no native call is
made). -/
def mtx_timedlock_native (mtx : Option Unit) (xt : Option xtime) (rt : Int) :
    COut × Option xtime :=
  match mtx with
  | none => (.abort, none)
  | some _ =>
    match xt with
    | none => (.abort, none)
    | some t =>
      let ts : xtime := ⟨t.sec, t.nsec⟩
      if rt = 0 then (.ret .success, some ts)
      else if rt = ETIMEDOUT then (.ret .busy, some ts)
      else (.ret .error, some ts)

/-- One iteration's worth of oracle inputs for the emulated timed-lock loop:
the native `pthread_mutex_trylock` return value consumed by the `mtx_trylock`
call of that iteration, and the `time(NULL)` reading taken when that trylock
does not succeed. -/
structure EmuStep where
  trylockRt : Int
  now : Int
deriving DecidableEq, Repr

/-- Outcome of the emulated timed-lock: a returned result code, an assertion
failure, or `spin` when the busy loop is still running after consuming all the
oracle steps provided. -/
inductive TLOut where
  | ret (r : ThrdResult)
  | abort
  | spin
deriving DecidableEq, Repr

/-- Embeds the loop body of the emulated `mtx_timedlock`
(threads_posix.h:219-226):
`while (mtx_trylock(mtx) != thrd_success) { time_t now = time(NULL);
if (expire < now) return thrd_busy; thrd_yield(); }  return thrd_success;`
`expire` is fixed before the loop; each iteration consumes one `EmuStep`. -/
def timedlockLoop (expire : Int) : List EmuStep → TLOut
  | [] => .spin
  | s :: rest =>
    if mtx_trylock (some ()) s.trylockRt ≠ COut.ret ThrdResult.success then
      if expire < s.now then .ret .busy
      else timedlockLoop expire rest
    else .ret .success

/-- Embeds `mtx_timedlock` (threads_posix.h:200-229) in the configuration
where `EMULATED_THREADS_USE_NATIVE_TIMEDLOCK` is NOT defined.  After the two
asserts: `time_t expire = time(NULL); expire += xt->sec;` then the
trylock/yield loop.  `entry` is the oracle for the `time(NULL)` reading at
call entry; `steps` supplies the per-iteration oracles.  Note `xt->nsec` is
never read. -/
def mtx_timedlock_emulated (mtx : Option Unit) (xt : Option xtime)
    (entry : Int) (steps : List EmuStep) : TLOut :=
  match mtx with
  | none => .abort
  | some _ =>
    match xt with
    | none => .abort
    | some t => timedlockLoop (entry + t.sec) steps

/-- Embeds `cnd_timedwait` (threads_posix.h:134-145).  The source declares a
local `struct timespec abs_time` and, after `assert(mtx != NULL);
assert(cond != NULL);`, passes it to `pthread_cond_timedwait(cond, mtx,
&abs_time)` WITHOUT ever initialising it: the parameter `xt` is never read in
the body.  The indeterminate stack contents of `abs_time` are modelled by the
oracle `uninitAbsTime`; the native call is the oracle `native`, a function of
the timespec actually passed.  `rt == ETIMEDOUT` maps to busy, then `rt == 0`
to success, anything else to error.  The second component records the timespec
passed to the native call (`none` when no native call is made). -/
def cnd_timedwait (cond : Option Unit) (mtx : Option Unit) (xt : Option xtime)
    (uninitAbsTime : xtime) (native : xtime → Int) : COut × Option xtime :=
  match mtx with
  | none => (.abort, none)
  | some _ =>
    match cond with
    | none => (.abort, none)
    | some _ =>
      let abs_time := uninitAbsTime
      let rt := native abs_time
      if rt = ETIMEDOUT then (.ret .busy, some abs_time)
      else if rt = 0 then (.ret .success, some abs_time)
      else (.ret .error, some abs_time)

/-- Native calls made by `mtx_init`, in order: `pthread_mutexattr_init`,
`pthread_mutexattr_settype(&attr, PTHREAD_MUTEX_RECURSIVE)`,
`pthread_mutex_init`, `pthread_mutexattr_destroy`. -/
inductive MtxInitCall where
  | attrInit
  | attrSetRecursive
  | mutexInit
  | attrDestroy
deriving DecidableEq, Repr

/-- Embeds `mtx_init` (threads_posix.h:167-183).  The kind constants
`mtx_plain`, `mtx_timed`, `mtx_try`, `mtx_recursive` live in the library's
public header (not under src/), so they are kept abstract as parameters; the
source treats them only via equality tests, `|` and `&`.  After
`assert(mtx != NULL)`, a `type` differing from all six valid combinations
returns `thrd_error` before any native call; otherwise the attribute object is
initialised, set recursive exactly when `(type & mtx_recursive) != 0`, the
mutex is initialised with it, the attribute is destroyed, and `thrd_success`
is returned.  The second component is the trace of native calls. -/
def mtx_init (mtx : Option Unit)
    (mtx_plain mtx_timed mtx_try mtx_recursive type : Nat) :
    COut × List MtxInitCall :=
  match mtx with
  | none => (.abort, [])
  | some _ =>
    if type ≠ mtx_plain ∧ type ≠ mtx_timed ∧ type ≠ mtx_try
        ∧ type ≠ (mtx_plain ||| mtx_recursive)
        ∧ type ≠ (mtx_timed ||| mtx_recursive)
        ∧ type ≠ (mtx_try ||| mtx_recursive) then
      (.ret .error, [])
    else
      (.ret .success,
        [MtxInitCall.attrInit]
          ++ (if type &&& mtx_recursive ≠ 0 then [MtxInitCall.attrSetRecursive] else [])
          ++ [MtxInitCall.mutexInit, MtxInitCall.attrDestroy])

/-- Widening performed by the `(void*)(intptr_t)res` casts in
`impl_thrd_routine` (threads_posix.h:87) and `thrd_exit`
(threads_posix.h:291): the `int` value, sign-extended to `intptr_t` and
reinterpreted as a pointer, has object representation `res mod 2^64` under
LP64. -/
def intptr_of_int (v : Int) : Nat := (v % 2 ^ 64).toNat

/-- Narrowing performed by the `(int)(intptr_t)code` cast in `thrd_join`
(threads_posix.h:302): the 64-bit representation is truncated to its low 32
bits and reinterpreted as a signed 32-bit `int` (two's complement). -/
def int_of_ptr (p : Nat) : Int :=
  if p % 2 ^ 32 < 2 ^ 31 then ((p % 2 ^ 32 : Nat) : Int)
  else ((p % 2 ^ 32 : Nat) : Int) - 2 ^ 32

/-- Observable actions of the trampoline entry routine, in the order they are
performed: reading the start package's fields, `free(p)`, and the call of the
start function with the copied values. -/
inductive RoutineEvent where
  | readPack (func arg : Nat)
  | freePack
  | callStart (func arg : Nat)
deriving DecidableEq, Repr

/-- Embeds `impl_thrd_routine` (threads_posix.h:82-88) together with the
`struct impl_thrd_param` package (threads_posix.h:77-80).  The package contents
are the abstract values `func`/`arg` (a function pointer and a `void *`,
modelled as opaque 64-bit words); `startFn` is the oracle giving the start
function's `int` result on those values.  Line 85 copies the package by value
(`readPack`), line 86 frees it (`freePack`), line 87 calls the copied function
pointer on the copied argument (`callStart`) and widens the `int` result
through `(void*)(intptr_t)` for the native exit channel.  The event list
records this order. -/
def impl_thrd_routine (func arg : Nat) (startFn : Nat → Nat → Int) :
    Nat × List RoutineEvent :=
  let pack : Nat × Nat := (func, arg)
  let res := startFn pack.1 pack.2
  (intptr_of_int res,
    [.readPack func arg, .freePack, .callStart pack.1 pack.2])

/-- Embeds `thrd_exit` (threads_posix.h:288-292): the value published through
`pthread_exit((void*)(intptr_t)res)` — the same widening as the trampoline's
return. -/
def thrd_exit (res : Int) : Nat := intptr_of_int res

/-- Embeds `thrd_join` (threads_posix.h:295-304).  `joinRt` is the oracle for
`pthread_join(thr, &code)`; `code` the 64-bit exit value it delivers on
success; `resNonNull` models the `if (res)` test on the caller's result
pointer.  The second component is the value written through `res` (`none`
meaning no write through the pointer was performed). -/
def thrd_join (joinRt : Int) (code : Nat) (resNonNull : Bool) :
    ThrdResult × Option Int :=
  if joinRt ≠ 0 then (.error, none)
  else if resNonNull then (.success, some (int_of_ptr code))
  else (.success, none)

/-- Observable actions of `thrd_create`, in order: the `malloc` of the start
package, the `pthread_create` call carrying the package contents, and
`free(pack)` on the failure path. -/
inductive CreateEvent where
  | mallocCall
  | pthreadCreate (func arg : Nat)
  | freePack
deriving DecidableEq, Repr

/-- Embeds `thrd_create` (threads_posix.h:250-264).  After
`assert(thr != NULL)` the package is malloc'd (`mallocOk` is the oracle for
whether malloc returns non-null); on failure `thrd_nomem` is returned with no
further native call.  Otherwise the package is filled with `func`/`arg` and
handed to `pthread_create` (oracle return `createRt`); a nonzero `createRt`
frees the package and returns `thrd_error`, else `thrd_success`.  Components:
result, event trace, the package still allocated when the call returns
(`none` on every path that does not hand it off — no leak), and whether the
native create stored a handle in `*thr`. -/
def thrd_create (thr : Option Unit) (func arg : Nat)
    (mallocOk : Bool) (createRt : Int) :
    COut × List CreateEvent × Option (Nat × Nat) × Bool :=
  match thr with
  | none => (.abort, [], none, false)
  | some _ =>
    if !mallocOk then (.ret .nomem, [.mallocCall], none, false)
    else if createRt ≠ 0 then
      (.ret .error, [.mallocCall, .pthreadCreate func arg, .freePack], none, false)
    else
      (.ret .success, [.mallocCall, .pthreadCreate func arg], some (func, arg), true)

/-! Theorems settling the claims. -/

/-- C9: for every non-null mutex, TryLock returns success exactly when the
native trylock returns 0 and busy otherwise; its result is always one of
success or busy — never the generic error, whatever the native failure code. -/
theorem c9_mtx_trylock (rt : Int) :
    (mtx_trylock (some ()) rt = COut.ret ThrdResult.success ↔ rt = 0)
    ∧ (rt ≠ 0 → mtx_trylock (some ()) rt = COut.ret ThrdResult.busy)
    ∧ (mtx_trylock (some ()) rt = COut.ret ThrdResult.success
        ∨ mtx_trylock (some ()) rt = COut.ret ThrdResult.busy) := by
  unfold mtx_trylock
  by_cases h : rt = 0 <;> simp [h]

/-- Witness for C9 at the concrete native failure code 5 (e.g. EBUSY/EINVAL):
the result is busy, not error. -/
theorem c9_mtx_trylock_witness :
    mtx_trylock (some ()) 5 = COut.ret ThrdResult.busy :=
  (c9_mtx_trylock 5).2.1 (by decide)

/-- C10: Join accepts a null result-output pointer.  When the native join
succeeds (return 0), Join with a null result pointer returns success and
writes nothing through the pointer; with a non-null pointer the published
64-bit exit value is narrowed to int and stored.  When the native join fails
(nonzero return), Join returns the generic error and writes nothing in either
case. -/
theorem c10_thrd_join (code : Nat) (b : Bool) (rt : Int) (hrt : rt ≠ 0) :
    thrd_join 0 code false = (ThrdResult.success, none)
    ∧ thrd_join 0 code true = (ThrdResult.success, some (int_of_ptr code))
    ∧ thrd_join rt code b = (ThrdResult.error, none) := by
  unfold thrd_join
  simp [hrt]

/-- Witness for C10 at exit value 7 and native join failure code 3. -/
theorem c10_thrd_join_witness :
    thrd_join 0 7 false = (ThrdResult.success, none)
    ∧ thrd_join 3 7 true = (ThrdResult.error, none) :=
  ⟨(c10_thrd_join 7 true 3 (by decide)).1, (c10_thrd_join 7 true 3 (by decide)).2.2⟩

/-- C6: the trampoline entry routine reads the package's fields (position 0),
then frees the package (position 1), and only then calls the start function on
the copied values (position 2); the trace has no other event, so the package
is never read after the free and the free happens before the start function
runs.  The routine's return value is the start function's int result widened
through the native exit channel. -/
theorem c6_impl_thrd_routine (func arg : Nat) (startFn : Nat → Nat → Int) :
    ((impl_thrd_routine func arg startFn).2)[0]? = some (RoutineEvent.readPack func arg)
    ∧ ((impl_thrd_routine func arg startFn).2)[1]? = some RoutineEvent.freePack
    ∧ ((impl_thrd_routine func arg startFn).2)[2]? = some (RoutineEvent.callStart func arg)
    ∧ (impl_thrd_routine func arg startFn).2.length = 3
    ∧ (impl_thrd_routine func arg startFn).1 = intptr_of_int (startFn func arg) :=
  ⟨rfl, rfl, rfl, rfl, rfl⟩

/-- C2 fails on the code: `cnd_timedwait` never reads its time argument.  The
whole call result — including the timespec handed to the native
`pthread_cond_timedwait` — is independent of `xt` (first conjunct), and at the
concrete failing input xt = (5, 0) with the uninitialised stack bytes reading
as (0, 0), the deadline passed to the native call is (0, 0), not the caller's
(5, 0) (second conjunct). -/
theorem c2_deadline_ignored :
    (∀ (xt1 xt2 : Option xtime) (uninit : xtime) (native : xtime → Int),
        cnd_timedwait (some ()) (some ()) xt1 uninit native
          = cnd_timedwait (some ()) (some ()) xt2 uninit native)
    ∧ (cnd_timedwait (some ()) (some ()) (some ⟨5, 0⟩) ⟨0, 0⟩ (fun _ => 0)).2
        ≠ some (⟨5, 0⟩ : xtime) :=
  ⟨fun _ _ _ _ => rfl, by decide⟩

/-- C4 as stated is false on the code: with a null mutex, `mtx_timedlock`
fails the `assert(mtx != NULL)` and aborts (under the native strategy at the
concrete input xt = (0,0), native return 0); it does not return the generic
error result. -/
theorem c4_counterexample :
    (mtx_timedlock_native none (some ⟨0, 0⟩) 0).1 = COut.abort
    ∧ (mtx_timedlock_native none (some ⟨0, 0⟩) 0).1 ≠ COut.ret ThrdResult.error
    ∧ mtx_timedlock_emulated none (some ⟨0, 0⟩) 0 [] = TLOut.abort := by
  exact ⟨rfl, by decide, rfl⟩

/-- C4 amended: under both strategies, TimedLock with a null mutex or null
deadline argument fails an assertion before any native primitive is invoked
(the native-strategy embedding records no timespec passed), aborting rather
than returning a generic error result. -/
theorem c4_amended (t : xtime) (rt entry : Int) (steps : List EmuStep) :
    mtx_timedlock_native none (some t) rt = (COut.abort, none)
    ∧ mtx_timedlock_native (some ()) none rt = (COut.abort, none)
    ∧ mtx_timedlock_native none none rt = (COut.abort, none)
    ∧ mtx_timedlock_emulated none (some t) entry steps = TLOut.abort
    ∧ mtx_timedlock_emulated (some ()) none entry steps = TLOut.abort
    ∧ mtx_timedlock_emulated none none entry steps = TLOut.abort :=
  ⟨rfl, rfl, rfl, rfl, rfl, rfl⟩

/-- C8: under the native strategy, for a non-null mutex and non-null deadline,
TimedLock passes the deadline's (sec, nsec) to the native absolute-deadline
lock and returns success exactly when the native call returns 0, busy exactly
when it returns the timeout indicator ETIMEDOUT, and the generic error for any
other native result. -/
theorem c8_native_timedlock (t : xtime) (rt : Int) :
    (mtx_timedlock_native (some ()) (some t) rt).2 = some t
    ∧ ((mtx_timedlock_native (some ()) (some t) rt).1 = COut.ret ThrdResult.success
        ↔ rt = 0)
    ∧ ((mtx_timedlock_native (some ()) (some t) rt).1 = COut.ret ThrdResult.busy
        ↔ rt = ETIMEDOUT)
    ∧ (rt ≠ 0 → rt ≠ ETIMEDOUT →
        (mtx_timedlock_native (some ()) (some t) rt).1 = COut.ret ThrdResult.error) := by
  unfold mtx_timedlock_native ETIMEDOUT
  by_cases h0 : rt = 0
  · simp [h0]
  · by_cases hT : rt = 110 <;> simp [h0, hT]

/-- Witness for C8 at deadline (3, 4) and the concrete native result 7
(neither 0 nor ETIMEDOUT): the result is the generic error. -/
theorem c8_native_timedlock_witness :
    (mtx_timedlock_native (some ()) (some ⟨3, 4⟩) 7).1 = COut.ret ThrdResult.error :=
  (c8_native_timedlock ⟨3, 4⟩ 7).2.2.2 (by decide) (by decide)

/-- C1: under the emulated strategy, for a non-null mutex and non-null
deadline, the expiry is the entry-time reading plus the deadline's whole
seconds: a TryLock success (native trylock 0) on the current iteration returns
success; on a failed TryLock, a wall-clock reading strictly past
`entry + t.sec` returns busy; otherwise the loop retries on the remaining
iterations with the same expiry; and the deadline's nanoseconds field is
ignored (the result is unchanged under any replacement of it). -/
theorem c1_emulated_timedlock (t : xtime) (entry : Int) (s : EmuStep)
    (rest : List EmuStep) :
    (s.trylockRt = 0 →
      mtx_timedlock_emulated (some ()) (some t) entry (s :: rest)
        = TLOut.ret ThrdResult.success)
    ∧ (s.trylockRt ≠ 0 → entry + t.sec < s.now →
      mtx_timedlock_emulated (some ()) (some t) entry (s :: rest)
        = TLOut.ret ThrdResult.busy)
    ∧ (s.trylockRt ≠ 0 → ¬ entry + t.sec < s.now →
      mtx_timedlock_emulated (some ()) (some t) entry (s :: rest)
        = mtx_timedlock_emulated (some ()) (some t) entry rest)
    ∧ (∀ n : Int,
      mtx_timedlock_emulated (some ()) (some t) entry (s :: rest)
        = mtx_timedlock_emulated (some ()) (some ⟨t.sec, n⟩) entry (s :: rest)) := by
  refine ⟨fun h => ?_, fun h hlt => ?_, fun h hge => ?_, fun n => rfl⟩
  · simp [mtx_timedlock_emulated, timedlockLoop, mtx_trylock, h]
  · simp [mtx_timedlock_emulated, timedlockLoop, mtx_trylock, h, hlt]
  · simp [mtx_timedlock_emulated, timedlockLoop, mtx_trylock, h, hge]

/-- Witness for C1: entry time 100, deadline seconds 7 (nanoseconds 999
ignored), one iteration whose trylock fails (native 16 = EBUSY) at wall-clock
108 which is strictly past the expiry 107: the call returns busy. -/
theorem c1_emulated_timedlock_witness :
    mtx_timedlock_emulated (some ()) (some ⟨7, 999⟩) 100 [⟨16, 108⟩]
      = TLOut.ret ThrdResult.busy :=
  (c1_emulated_timedlock ⟨7, 999⟩ 100 ⟨16, 108⟩ []).2.1 (by decide) (by decide)

/-- C3: an invalid kind value (differing from all six valid combinations)
makes mutex creation return the generic error with no native call; a valid
kind yields success with the native call sequence attribute-init, recursive
selection (present exactly when the recursive bit of the kind is set),
mutex-init with that attribute, attribute-destroy. -/
theorem c3_mtx_init (p ti tr r type : Nat) :
    ((type ≠ p ∧ type ≠ ti ∧ type ≠ tr ∧ type ≠ (p ||| r) ∧ type ≠ (ti ||| r)
        ∧ type ≠ (tr ||| r)) →
      mtx_init (some ()) p ti tr r type = (COut.ret ThrdResult.error, []))
    ∧ ((type = p ∨ type = ti ∨ type = tr ∨ type = (p ||| r) ∨ type = (ti ||| r)
        ∨ type = (tr ||| r)) →
      (mtx_init (some ()) p ti tr r type).1 = COut.ret ThrdResult.success
      ∧ ((mtx_init (some ()) p ti tr r type).2
            = [MtxInitCall.attrInit, MtxInitCall.attrSetRecursive,
               MtxInitCall.mutexInit, MtxInitCall.attrDestroy]
         ∨ (mtx_init (some ()) p ti tr r type).2
            = [MtxInitCall.attrInit, MtxInitCall.mutexInit, MtxInitCall.attrDestroy])
      ∧ (MtxInitCall.attrSetRecursive ∈ (mtx_init (some ()) p ti tr r type).2
          ↔ type &&& r ≠ 0)) := by
  constructor
  · intro h
    unfold mtx_init
    rw [if_pos h]
  · intro hv
    have hcond : ¬ (type ≠ p ∧ type ≠ ti ∧ type ≠ tr ∧ type ≠ (p ||| r)
        ∧ type ≠ (ti ||| r) ∧ type ≠ (tr ||| r)) := by
      tauto
    unfold mtx_init
    rw [if_neg hcond]
    by_cases hrec : type &&& r ≠ 0 <;> simp [hrec]

/-- Witness for C3 with the concrete kind constants plain = 0, timed = 2,
try = 4, recursive = 1: the invalid kind 9 errors with no native call, and the
valid kind 3 = timed|recursive succeeds with the recursive selection present. -/
theorem c3_mtx_init_witness :
    mtx_init (some ()) 0 2 4 1 9 = (COut.ret ThrdResult.error, [])
    ∧ (mtx_init (some ()) 0 2 4 1 3).1 = COut.ret ThrdResult.success
    ∧ (MtxInitCall.attrSetRecursive ∈ (mtx_init (some ()) 0 2 4 1 3).2
        ↔ (3 : Nat) &&& 1 ≠ 0) :=
  ⟨(c3_mtx_init 0 2 4 1 9).1 (by decide),
   ((c3_mtx_init 0 2 4 1 3).2 (by decide)).1,
   ((c3_mtx_init 0 2 4 1 3).2 (by decide)).2.2⟩

/-- C5: thread creation first allocates the start package holding the start
function and argument; a failed allocation returns out-of-memory having made
no native thread-creation call; a failed native creation (nonzero return)
frees the package — nothing stays allocated — and returns the generic error;
otherwise it returns success, the native create has stored the handle, and the
package (still holding func and arg) has been handed off to the new thread. -/
theorem c5_thrd_create (func arg : Nat) (crt : Int) (hcrt : crt ≠ 0) :
    (∀ rt : Int, thrd_create (some ()) func arg false rt
        = (COut.ret ThrdResult.nomem, [CreateEvent.mallocCall], none, false))
    ∧ thrd_create (some ()) func arg true crt
        = (COut.ret ThrdResult.error,
           [CreateEvent.mallocCall, CreateEvent.pthreadCreate func arg,
            CreateEvent.freePack], none, false)
    ∧ thrd_create (some ()) func arg true 0
        = (COut.ret ThrdResult.success,
           [CreateEvent.mallocCall, CreateEvent.pthreadCreate func arg],
           some (func, arg), true) := by
  refine ⟨fun rt => rfl, ?_, by simp [thrd_create]⟩
  unfold thrd_create
  simp [hcrt]

/-- Witness for C5 at the concrete native create failure code 11 (EAGAIN):
the package is freed and the generic error returned, with the malloc-failure
and success paths instantiated alongside. -/
theorem c5_thrd_create_witness :
    thrd_create (some ()) 40 41 false 0
      = (COut.ret ThrdResult.nomem, [CreateEvent.mallocCall], none, false)
    ∧ thrd_create (some ()) 40 41 true 11
      = (COut.ret ThrdResult.error,
         [CreateEvent.mallocCall, CreateEvent.pthreadCreate 40 41,
          CreateEvent.freePack], none, false) :=
  ⟨(c5_thrd_create 40 41 11 (by decide)).1 0,
   (c5_thrd_create 40 41 11 (by decide)).2.1⟩

/-- Round-trip of the exit-channel casts: widening an in-range 32-bit int to
the 64-bit pointer representation and narrowing it back is the identity. -/
theorem int_ptr_roundtrip (v : Int) (h1 : -(2 ^ 31) ≤ v) (h2 : v < 2 ^ 31) :
    int_of_ptr (intptr_of_int v) = v := by
  unfold int_of_ptr intptr_of_int
  have e64 : (2 : Int) ^ 64 = 18446744073709551616 := by norm_num
  have n32 : (2 : Nat) ^ 32 = 4294967296 := by norm_num
  have n31 : (2 : Nat) ^ 31 = 2147483648 := by norm_num
  have e32 : (2 : Int) ^ 32 = 4294967296 := by norm_num
  have e31 : (2 : Int) ^ 31 = 2147483648 := by norm_num
  rw [e64, n32, n31, e32]
  rw [e31] at h2
  have h31 : -(2 ^ 31 : Int) = -2147483648 := by norm_num
  rw [h31] at h1
  split_ifs with hlt
  · omega
  · omega

/-- C7: for every int value v in the 32-bit range, the composition of the
trampoline's widening of the start function's result with Join's narrowing is
the identity: a start function returning v is observed as v by Join, and the
same round-trip holds for a value published via explicit Exit. -/
theorem c7_join_roundtrip (v : Int) (func arg : Nat)
    (h1 : -(2 ^ 31) ≤ v) (h2 : v < 2 ^ 31) :
    thrd_join 0 (impl_thrd_routine func arg (fun _ _ => v)).1 true
      = (ThrdResult.success, some v)
    ∧ thrd_join 0 (thrd_exit v) true = (ThrdResult.success, some v) := by
  have hr := int_ptr_roundtrip v h1 h2
  constructor
  · show thrd_join 0 (intptr_of_int v) true = (ThrdResult.success, some v)
    simp [thrd_join, hr]
  · simp [thrd_join, thrd_exit, hr]

/-- Witness for C7 at the boundary value 2147483647 = 2^31 - 1. -/
theorem c7_join_roundtrip_witness :
    thrd_join 0 (impl_thrd_routine 0 0 (fun _ _ => (2147483647 : Int))).1 true
      = (ThrdResult.success, some 2147483647) :=
  (c7_join_roundtrip 2147483647 0 0 (by decide) (by decide)).1
